import Mathlib

/-!
Shallow embedding of the account authentication and token-lifecycle core of
`src/dash.py` (Credential Store, Session Authenticator, Account Session
Registry), together with proofs of the spec claims about it.

Python dictionaries loaded from `config.json` become the `Account` record;
`dict.get` of a possibly-missing string field becomes `Option String`.
The external KiteConnect network collaborators (`kite.profile()` and
`kite.generate_session(...)`) and the ability of `save_accounts_config` to
write the file are modelled by a `KiteEnv` record of pure functions; the
network calls a run performs are collected in a trace list so that claims
about "how many times a collaborator is called" are statable.
-/

/-- One record of `config.json` (an element of `accounts_config`).
`none` models a missing key of the Python dict (`dict.get` returning
`None`). -/
structure Account where
  account_id : Option String
  api_key : Option String
  secret_api_key : Option String
  access_token : Option String
  request_token : Option String
deriving DecidableEq

/-- The authenticated `KiteConnect` object as the caller can observe it:
the api key it was built with and the access token set on it.  This is the
embedding of a `SessionHandle`. -/
structure Kite where
  api_key : String
  access_token : String
deriving DecidableEq

/-- One network call to the external KiteConnect collaborator:
`profile k t` is `kite.profile()` on a kite with api key `k` and access
token `t`; `exchange k r s` is `kite.generate_session(r, api_secret=s)`. -/
inductive NetCall where
  | profile (apiKey accessToken : String)
  | exchange (apiKey requestToken apiSecret : String)
deriving DecidableEq

/-- Whether a trace entry is a call to the login-token exchange
collaborator (`kite.generate_session`). -/
def NetCall.isExchange : NetCall → Bool
  | NetCall.profile _ _ => false
  | NetCall.exchange _ _ _ => true

/-- The external world of one run: what `kite.profile()` returns for a
given api key and access token, what `kite.generate_session` returns
(`Except.error` models a raised exception; the `Option String` payload is
`data.get('access_token')`), and whether writing `config.json` succeeds. -/
structure KiteEnv where
  profileCheck : String → String → Except String Unit
  generateSession : String → String → String → Except String (Option String)
  saveOk : Bool

/-- Truthiness of a Python value obtained by `dict.get` on a string field:
`not x` is true exactly when the key is absent (`None`) or the string is
empty. -/
def pyFalsy : Option String → Bool
  | none => true
  | some s => s = ""

/-- Rendering of an optional string inside a Python f-string:
`None` prints as `"None"`. -/
def pyStr : Option String → String
  | none => "None"
  | some s => s

/-- Drop leading whitespace characters from a character list. -/
def dropLeadingWS : List Char → List Char
  | [] => []
  | c :: cs => if c.isWhitespace then dropLeadingWS cs else c :: cs

/-- Python `str.strip()`, modelled by trimming leading and trailing
whitespace. -/
def pyStrip (s : String) : String :=
  String.mk ((dropLeadingWS ((dropLeadingWS s.data).reverse)).reverse)

/-- Embedding of `save_accounts_config` (src/dash.py lines 51-59): writes
the whole account list to `config.json` and returns `True`, or returns
`False` on an exception leaving the file as it was.  The possibility of
the write failing is the environment flag `saveOk`; the function returns
the success flag and the resulting on-disk contents. -/
def save_accounts_config (saveOk : Bool) (accounts disk : List Account) :
    Bool × List Account :=
  if saveOk then (true, accounts) else (false, disk)

/-- Loop body of `update_account_access_token` (src/dash.py lines 61-71).
`pre` is the already-scanned portion of the (in-place mutated) shared
accounts list, `rest` the portion still to scan.  At the first record
whose `account_id` equals `aid` the `access_token` field is overwritten
in place and a save of the whole current list is attempted; a successful
save returns `True` immediately, a failed save falls through and the scan
continues (the in-place mutation stays).  Returns (result, in-memory
accounts list, on-disk contents). -/
def update_go (aid : Option String) (tok : String) (saveOk : Bool) :
    List Account → List Account → List Account →
    Bool × List Account × List Account
  | pre, [], disk => (false, pre, disk)
  | pre, a :: rest, disk =>
    if a.account_id = aid then
      match save_accounts_config saveOk (pre ++ { a with access_token := some tok } :: rest) disk with
      | (true, disk') => (true, pre ++ { a with access_token := some tok } :: rest, disk')
      | (false, disk') => update_go aid tok saveOk (pre ++ [{ a with access_token := some tok }]) rest disk'
    else
      update_go aid tok saveOk (pre ++ [a]) rest disk

/-- Embedding of `update_account_access_token` (src/dash.py lines 61-71):
scan `st.session_state['accounts_config']` for the record with the given
`account_id`, overwrite its `access_token` field in place, and write the
whole list back to `config.json`.  Returns `False`, touching nothing, when
no record matches. -/
def update_account_access_token (store disk : List Account) (saveOk : Bool)
    (aid : Option String) (tok : String) : Bool × List Account × List Account :=
  update_go aid tok saveOk [] store disk

/-- Result of one `authenticate_account` run: the returned pair
`(kite_or_None, status_message)`, the trace of network collaborator calls
the run made, and the in-memory and on-disk credential store afterwards. -/
structure AuthOutcome where
  result : Option Kite
  message : String
  calls : List NetCall
  store : List Account
  disk : List Account
deriving DecidableEq

/-- The effective request token of the fresh-login path (src/dash.py line
113): `user_request_token if user_request_token else
account_config.get('request_token', '')`. -/
def effectiveToken (user_request_token : Option String) (account_config : Account) : String :=
  match user_request_token with
  | some u => if u = "" then Option.getD account_config.request_token "" else u
  | none => Option.getD account_config.request_token ""

/-- Embedding of the fresh-login tail of `authenticate_account`
(src/dash.py lines 111-138), entered when the cached access token was
absent, blank, or failed verification.  `calls0` is the trace accumulated
by the cached-token attempt.  Exceptions raised by `generate_session` or
by the verifying `profile()` are caught by the function-wide handler and
rendered as `"Authentication failed for ...: ..."`. -/
def authenticate_fresh (env : KiteEnv) (store disk : List Account)
    (account_config : Account) (user_request_token : Option String)
    (calls0 : List NetCall) : AuthOutcome :=
  if effectiveToken user_request_token account_config = ""
      ∨ pyStrip (effectiveToken user_request_token account_config) = "" then
    ⟨none, "Request token required for " ++ pyStr account_config.account_id,
     calls0, store, disk⟩
  else
    match env.generateSession (Option.getD account_config.api_key "")
        (effectiveToken user_request_token account_config)
        (Option.getD account_config.secret_api_key "") with
    | Except.error e =>
      ⟨none, "Authentication failed for " ++ Option.getD account_config.account_id "unknown"
         ++ ": " ++ e,
       calls0 ++ [NetCall.exchange (Option.getD account_config.api_key "")
         (effectiveToken user_request_token account_config)
         (Option.getD account_config.secret_api_key "")],
       store, disk⟩
    | Except.ok data =>
      if pyFalsy data then
        ⟨none, "Failed to get access token for " ++ pyStr account_config.account_id,
         calls0 ++ [NetCall.exchange (Option.getD account_config.api_key "")
           (effectiveToken user_request_token account_config)
           (Option.getD account_config.secret_api_key "")],
         store, disk⟩
      else
        match env.profileCheck (Option.getD account_config.api_key "") (Option.getD data "") with
        | Except.error e =>
          ⟨none, "Authentication failed for " ++ Option.getD account_config.account_id "unknown"
             ++ ": " ++ e,
           calls0 ++ [NetCall.exchange (Option.getD account_config.api_key "")
             (effectiveToken user_request_token account_config)
             (Option.getD account_config.secret_api_key ""),
             NetCall.profile (Option.getD account_config.api_key "") (Option.getD data "")],
           store, disk⟩
        | Except.ok _ =>
          ⟨some ⟨Option.getD account_config.api_key "", Option.getD data ""⟩,
           "Connected: " ++ pyStr account_config.account_id,
           calls0 ++ [NetCall.exchange (Option.getD account_config.api_key "")
             (effectiveToken user_request_token account_config)
             (Option.getD account_config.secret_api_key ""),
             NetCall.profile (Option.getD account_config.api_key "") (Option.getD data "")],
           (update_account_access_token store disk env.saveOk account_config.account_id
             (Option.getD data "")).2.1,
           (update_account_access_token store disk env.saveOk account_config.account_id
             (Option.getD data "")).2.2⟩

/-- Embedding of `authenticate_account` (src/dash.py lines 73-138).
`store`/`disk` are `st.session_state['accounts_config']` and the contents
of `config.json`.  Checks the api credentials, then (when
`try_access_token_first` and the saved `access_token` is non-blank)
attempts the cached token with a verifying `profile()` call, falling
through silently to the fresh-login path on any error. -/
def authenticate_account (env : KiteEnv) (store disk : List Account)
    (account_config : Account) (user_request_token : Option String)
    (try_access_token_first : Bool) : AuthOutcome :=
  if pyFalsy account_config.api_key ∨ pyFalsy account_config.secret_api_key then
    ⟨none, "Missing API credentials for " ++ pyStr account_config.account_id,
     [], store, disk⟩
  else
    if try_access_token_first
        ∧ Option.getD account_config.access_token "" ≠ ""
        ∧ pyStrip (Option.getD account_config.access_token "") ≠ "" then
      match env.profileCheck (Option.getD account_config.api_key "")
          (Option.getD account_config.access_token "") with
      | Except.ok _ =>
        ⟨some ⟨Option.getD account_config.api_key "", Option.getD account_config.access_token ""⟩,
         "Connected: " ++ pyStr account_config.account_id ++ " (using saved access_token)",
         [NetCall.profile (Option.getD account_config.api_key "")
           (Option.getD account_config.access_token "")],
         store, disk⟩
      | Except.error _ =>
        authenticate_fresh env store disk account_config user_request_token
          [NetCall.profile (Option.getD account_config.api_key "")
            (Option.getD account_config.access_token "")]
    else
      authenticate_fresh env store disk account_config user_request_token []

/-- The Account Session Registry: the embedding of the
`st.session_state['authenticated_accounts']` dict, as an association list
whose keys are unique. -/
abbrev Registry := List (Option String × Kite)

/-- Dict assignment `authenticated_accounts[account_id] = kite_obj`
(src/dash.py line 778): unconditional overwrite of the entry for that key. -/
def registerAccount (reg : Registry) (id : Option String) (k : Kite) : Registry :=
  (id, k) :: reg.filter (fun p => p.1 ≠ id)

/-- Membership test `account_id in authenticated_accounts`
(src/dash.py line 726). -/
def isConnected (reg : Registry) (id : Option String) : Bool :=
  reg.any (fun p => p.1 = id)

/-- The Disconnect handler (src/dash.py lines 787-792): the delete runs
only when the account is connected, so an absent key is a no-op rather
than an error. -/
def unregisterAccount (reg : Registry) (id : Option String) : Registry :=
  if isConnected reg id then reg.filter (fun p => p.1 ≠ id) else reg

/-- Lookup of the session handle registered for an identifier. -/
def lookupAccount (reg : Registry) (id : Option String) : Option Kite :=
  (reg.find? (fun p => p.1 = id)).map (fun p => p.2)

/-- Request-token selection of the Connect handler (src/dash.py lines
764-773): the token saved in `account_request_tokens` if truthy, else the
config record's `request_token`; the result is passed to
`authenticate_account` as `None` when falsy. -/
def connectToken (savedToken : Option String) (account : Account) : Option String :=
  match savedToken with
  | some u =>
    if u = "" then
      if Option.getD account.request_token "" = "" then none
      else some (Option.getD account.request_token "")
    else some u
  | none =>
    if Option.getD account.request_token "" = "" then none
    else some (Option.getD account.request_token "")

/-- Embedding of the Connect button handler (src/dash.py lines 763-784):
run `authenticate_account` with the selected request token and
`try_access_token_first=True`; on success register the kite object under
the account id, on failure leave the registry alone.  Returns the
registry afterwards and the authentication outcome. -/
def connect_button_handler (env : KiteEnv) (reg : Registry)
    (store disk : List Account) (account : Account)
    (savedToken : Option String) : Registry × AuthOutcome :=
  match (authenticate_account env store disk account
      (connectToken savedToken account) true).result with
  | some k => (registerAccount reg account.account_id k,
      authenticate_account env store disk account (connectToken savedToken account) true)
  | none => (reg,
      authenticate_account env store disk account (connectToken savedToken account) true)

/-- The `A1` account of the end-to-end scenario: empty cached
`access_token`, stored `request_token` `RT1`. -/
def acctA1 : Account :=
  ⟨some "A1", some "K", some "S", some "", some "RT1"⟩

/-- An account with a cached access token `AT0` and no request token. -/
def acctCached : Account :=
  ⟨some "A1", some "K", some "S", some "AT0", none⟩

/-- An account whose cached access token is a single space: non-empty but
blank after stripping. -/
def acctBlankTok : Account :=
  ⟨some "A1", some "K", some "S", some " ", none⟩

/-- An account with valid api credentials and no tokens at all. -/
def acctBare : Account :=
  ⟨some "A1", some "K", some "S", none, none⟩

/-- An account whose api key is missing. -/
def acctNoKey : Account :=
  ⟨some "A1", none, some "S", none, none⟩

/-- An environment whose collaborators all succeed: every profile check
passes and every exchange yields access token `AT1`. -/
def envAllOk : KiteEnv :=
  ⟨fun _ _ => Except.ok (), fun _ _ _ => Except.ok (some "AT1"), true⟩

/-- The end-to-end scenario environment: the exchange accepts exactly
`(RT1, S)` and issues `AT1`, which is the only token that verifies. -/
def envC1 : KiteEnv :=
  ⟨fun _ t => if t = "AT1" then Except.ok () else Except.error "bad",
   fun _ r s => if r = "RT1" ∧ s = "S" then Except.ok (some "AT1") else Except.error "rej",
   true⟩

/-- An environment where only the cached token `AT0` verifies and the
exchange collaborator is down. -/
def envCachedOnly : KiteEnv :=
  ⟨fun _ t => if t = "AT0" then Except.ok () else Except.error "bad",
   fun _ _ _ => Except.error "offline", true⟩

/-- An environment whose exchange collaborator raises `boom`. -/
def envExchFail : KiteEnv :=
  ⟨fun _ _ => Except.ok (), fun _ _ _ => Except.error "boom", true⟩

/-- An environment whose exchange succeeds but every profile verification
raises `boom`. -/
def envVerFail : KiteEnv :=
  ⟨fun _ _ => Except.error "boom", fun _ _ _ => Except.ok (some "AT1"), true⟩

/-- An environment whose exchange returns a response with no access
token. -/
def envTokMissing : KiteEnv :=
  ⟨fun _ _ => Except.ok (), fun _ _ _ => Except.ok none, true⟩

/-- A fully-working environment in which writing `config.json` fails. -/
def envNoSave : KiteEnv :=
  ⟨fun _ _ => Except.ok (),
   fun _ r s => if r = "RT1" ∧ s = "S" then Except.ok (some "AT1") else Except.error "rej",
   false⟩

/-- A session handle fixture. -/
def kiteA : Kite :=
  ⟨"K", "AT1"⟩

/-- A second session handle fixture. -/
def kiteB : Kite :=
  ⟨"K2", "AT2"⟩

lemma update_go_absent (aid : Option String) (tok : String) (saveOk : Bool)
    (rest : List Account) (h : ∀ a ∈ rest, a.account_id ≠ aid) :
    ∀ pre disk, update_go aid tok saveOk pre rest disk = (false, pre ++ rest, disk) := by
  induction rest with
  | nil => intro pre disk; simp [update_go]
  | cons a rs ih =>
    intro pre disk
    have ha : a.account_id ≠ aid := h a (List.mem_cons_self a rs)
    rw [update_go, if_neg ha, ih (fun b hb => h b (List.mem_cons_of_mem a hb)) (pre ++ [a]) disk]
    simp

lemma update_go_found (aid : Option String) (tok : String) (saveOk : Bool)
    (a : Account) (ha : a.account_id = aid) (post : List Account)
    (hpost : ∀ b ∈ post, b.account_id ≠ aid) :
    ∀ (pre2 : List Account), (∀ b ∈ pre2, b.account_id ≠ aid) →
    ∀ pre0 disk, update_go aid tok saveOk pre0 (pre2 ++ a :: post) disk =
      (saveOk, pre0 ++ pre2 ++ { a with access_token := some tok } :: post,
       if saveOk then pre0 ++ pre2 ++ { a with access_token := some tok } :: post else disk) := by
  intro pre2
  induction pre2 with
  | nil =>
    intro _ pre0 disk
    rw [List.nil_append, update_go, if_pos ha]
    cases saveOk with
    | false =>
      simp only [save_accounts_config, if_neg (Bool.false_ne_true)]
      rw [update_go_absent aid tok false post hpost]
      simp
    | true => simp [save_accounts_config]
  | cons b bs ih =>
    intro hb pre0 disk
    have hbne : b.account_id ≠ aid := hb b (List.mem_cons_self b bs)
    rw [List.cons_append, update_go, if_neg hbne,
      ih (fun x hx => hb x (List.mem_cons_of_mem b hx)) (pre0 ++ [b]) disk]
    simp

/-- C8: `update_account_access_token` with an identifier matching no
stored record returns failure, creates no record and leaves both the
in-memory list and the on-disk contents unchanged; with a (unique) match
it overwrites only that record's `access_token` field, reports whether
the save succeeded, and the disk holds the updated list exactly when the
save succeeded. -/
theorem c8_update_token_absent_fails_present_mutates_one
    (store disk : List Account) (saveOk : Bool) (aid : Option String) (tok : String) :
    ((∀ a ∈ store, a.account_id ≠ aid) →
      update_account_access_token store disk saveOk aid tok = (false, store, disk))
    ∧ (∀ pre a post, store = pre ++ a :: post →
        (∀ b ∈ pre, b.account_id ≠ aid) → a.account_id = aid →
        (∀ b ∈ post, b.account_id ≠ aid) →
        update_account_access_token store disk saveOk aid tok =
          (saveOk, pre ++ { a with access_token := some tok } :: post,
           if saveOk then pre ++ { a with access_token := some tok } :: post else disk)) := by
  constructor
  · intro h
    unfold update_account_access_token
    rw [update_go_absent aid tok saveOk store h [] disk]
    simp
  · intro pre a post hsplit hpre ha hpost
    unfold update_account_access_token
    rw [hsplit, update_go_found aid tok saveOk a ha post hpost pre hpre [] disk]
    simp

/-- Witness for C8 at a one-record store: a foreign identifier fails and
changes nothing; the matching identifier gets its token overwritten in
memory and on disk. -/
theorem c8_update_token_witness :
    update_account_access_token [acctA1] [acctA1] true (some "ZZ") "T" = (false, [acctA1], [acctA1])
    ∧ update_account_access_token [acctA1] [acctA1] true (some "A1") "T" =
        (true, [{ acctA1 with access_token := some "T" }], [{ acctA1 with access_token := some "T" }]) := by
  constructor
  · exact (c8_update_token_absent_fails_present_mutates_one [acctA1] [acctA1] true (some "ZZ") "T").1
      (by decide)
  · have h := (c8_update_token_absent_fails_present_mutates_one [acctA1] [acctA1] true (some "A1") "T").2
      [] acctA1 [] rfl (by decide) (by decide) (by decide)
    simpa using h

lemma update_go_disk_unchanged_of_save_fails (aid : Option String) (tok : String)
    (rest : List Account) :
    ∀ pre disk, (update_go aid tok false pre rest disk).2.2 = disk := by
  induction rest with
  | nil => intro pre disk; simp [update_go]
  | cons a rs ih =>
    intro pre disk
    rw [update_go]
    by_cases ha : a.account_id = aid
    · rw [if_pos ha]
      simp only [save_accounts_config, if_neg (Bool.false_ne_true)]
      exact ih _ disk
    · rw [if_neg ha]
      exact ih _ disk

/-- C10: when the identifier is present but the configuration-file write
fails, `update_account_access_token` returns failure while the shared
in-memory accounts list already carries the new token, so the in-memory
store and the unchanged on-disk store diverge. -/
theorem c10_save_failure_leaves_memory_mutated
    (disk : List Account) (aid : Option String) (tok : String)
    (pre : List Account) (a : Account) (post : List Account)
    (hpre : ∀ b ∈ pre, b.account_id ≠ aid) (ha : a.account_id = aid)
    (hpost : ∀ b ∈ post, b.account_id ≠ aid) (htok : a.access_token ≠ some tok) :
    update_account_access_token (pre ++ a :: post) disk false aid tok =
      (false, pre ++ { a with access_token := some tok } :: post, disk)
    ∧ (update_account_access_token (pre ++ a :: post) disk false aid tok).2.1 ≠ pre ++ a :: post
    ∧ (disk = pre ++ a :: post →
        (update_account_access_token (pre ++ a :: post) disk false aid tok).2.1 ≠
        (update_account_access_token (pre ++ a :: post) disk false aid tok).2.2) := by
  have hmain : update_account_access_token (pre ++ a :: post) disk false aid tok =
      (false, pre ++ { a with access_token := some tok } :: post, disk) := by
    unfold update_account_access_token
    rw [update_go_found aid tok false a ha post hpost pre hpre [] disk]
    simp
  have hne : pre ++ { a with access_token := some tok } :: post ≠ pre ++ a :: post := by
    intro hEq
    have h2 : ({ a with access_token := some tok } : Account) :: post = a :: post :=
      List.append_cancel_left hEq
    have h3 : ({ a with access_token := some tok } : Account) = a := (List.cons.injEq _ _ _ _).mp h2 |>.1
    exact htok (congrArg Account.access_token h3).symm
  refine ⟨hmain, ?_, ?_⟩
  · rw [hmain]; exact hne
  · intro hdisk
    rw [hmain]
    simpa [hdisk] using hne

/-- Witness for C10: one matching record, failing save; memory holds the
new token, disk still the old list, and the two differ. -/
theorem c10_save_failure_witness :
    update_account_access_token [acctA1] [acctA1] false (some "A1") "AT1" =
      (false, [{ acctA1 with access_token := some "AT1" }], [acctA1])
    ∧ (update_account_access_token [acctA1] [acctA1] false (some "A1") "AT1").2.1 ≠ [acctA1]
    ∧ (update_account_access_token [acctA1] [acctA1] false (some "A1") "AT1").2.1 ≠
        (update_account_access_token [acctA1] [acctA1] false (some "A1") "AT1").2.2 := by
  have h := c10_save_failure_leaves_memory_mutated [acctA1] (some "A1") "AT1" [] acctA1 []
    (by decide) (by decide) (by decide) (by decide)
  exact ⟨by simpa using h.1, by simpa using h.2.1, h.2.2 (by simp)⟩

/-- C9: registry algebra — `register` unconditionally overwrites the
entry for the id (the subsequent lookup returns the new handle, with no
error for an existing entry), `unregister` on an absent id is a no-op
rather than an error, and `register` followed by `unregister` for the
same id leaves `isConnected` false and `all()` (the registry list)
without that id. -/
theorem c9_registry_register_unregister (reg : Registry) (id : Option String) (k : Kite) :
    lookupAccount (registerAccount reg id k) id = some k
    ∧ isConnected (unregisterAccount (registerAccount reg id k) id) id = false
    ∧ (∀ p ∈ unregisterAccount (registerAccount reg id k) id, p.1 ≠ id)
    ∧ (isConnected reg id = false → unregisterAccount reg id = reg) := by
  refine ⟨?_, ?_, ?_, ?_⟩
  · simp [lookupAccount, registerAccount]
  · simp [unregisterAccount, isConnected, registerAccount, List.mem_filter]
  · intro p hp
    have hcon : isConnected (registerAccount reg id k) id = true := by
      simp [isConnected, registerAccount]
    rw [unregisterAccount, if_pos hcon] at hp
    exact (of_decide_eq_true (List.mem_filter.mp hp).2)
  · intro h
    rw [unregisterAccount, if_neg (by simp [h])]

/-- Witness for C9 on a concrete registry holding another account. -/
theorem c9_registry_witness :
    lookupAccount (registerAccount [(some "B", kiteB)] (some "A1") kiteA) (some "A1") = some kiteA
    ∧ isConnected (unregisterAccount (registerAccount [(some "B", kiteB)] (some "A1") kiteA) (some "A1")) (some "A1") = false
    ∧ (∀ p ∈ unregisterAccount (registerAccount [(some "B", kiteB)] (some "A1") kiteA) (some "A1"), p.1 ≠ some "A1")
    ∧ unregisterAccount [(some "B", kiteB)] (some "A1") = [(some "B", kiteB)] := by
  refine ⟨(c9_registry_register_unregister [(some "B", kiteB)] (some "A1") kiteA).1,
    (c9_registry_register_unregister [(some "B", kiteB)] (some "A1") kiteA).2.1,
    (c9_registry_register_unregister [(some "B", kiteB)] (some "A1") kiteA).2.2.1,
    (c9_registry_register_unregister [(some "B", kiteB)] (some "A1") kiteA).2.2.2 (by decide)⟩

lemma authenticate_fresh_none_state (env : KiteEnv) (store disk : List Account)
    (acc : Account) (urt : Option String) (calls0 : List NetCall) :
    (authenticate_fresh env store disk acc urt calls0).result = none →
    (authenticate_fresh env store disk acc urt calls0).store = store ∧
    (authenticate_fresh env store disk acc urt calls0).disk = disk := by
  unfold authenticate_fresh
  split
  · intro _; exact ⟨rfl, rfl⟩
  · split
    · intro _; exact ⟨rfl, rfl⟩
    · split
      · intro _; exact ⟨rfl, rfl⟩
      · split
        · intro _; exact ⟨rfl, rfl⟩
        · intro h; exact absurd h (by simp)

lemma authenticate_none_state (env : KiteEnv) (store disk : List Account)
    (acc : Account) (urt : Option String) (taf : Bool) :
    (authenticate_account env store disk acc urt taf).result = none →
    (authenticate_account env store disk acc urt taf).store = store ∧
    (authenticate_account env store disk acc urt taf).disk = disk := by
  unfold authenticate_account
  split
  · intro _; exact ⟨rfl, rfl⟩
  · split
    · split
      · intro h; exact absurd h (by simp)
      · exact authenticate_fresh_none_state env store disk acc urt _
    · exact authenticate_fresh_none_state env store disk acc urt _

/-- C5: a failed authentication attempt corrupts no state — whenever
`authenticate_account` returns `None`, the in-memory accounts list and
the on-disk configuration are exactly as before, and the Connect handler
leaves the Account Session Registry untouched. -/
theorem c5_failure_preserves_state (env : KiteEnv) (store disk : List Account)
    (acc : Account) (urt : Option String) (taf : Bool) :
    ((authenticate_account env store disk acc urt taf).result = none →
      (authenticate_account env store disk acc urt taf).store = store ∧
      (authenticate_account env store disk acc urt taf).disk = disk)
    ∧ (∀ (reg : Registry) (savedToken : Option String),
        (connect_button_handler env reg store disk acc savedToken).2.result = none →
        (connect_button_handler env reg store disk acc savedToken).1 = reg) := by
  refine ⟨authenticate_none_state env store disk acc urt taf, ?_⟩
  intro reg savedToken
  unfold connect_button_handler
  split
  · intro h
    simp_all
  · intro _
    rfl

/-- Witness for C5: a credential with no api key fails, and store, disk
and registry are all unchanged. -/
theorem c5_failure_witness :
    ((authenticate_account envAllOk [acctNoKey] [acctNoKey] acctNoKey none true).store = [acctNoKey]
      ∧ (authenticate_account envAllOk [acctNoKey] [acctNoKey] acctNoKey none true).disk = [acctNoKey])
    ∧ (connect_button_handler envAllOk [(some "B", kiteB)] [acctNoKey] [acctNoKey] acctNoKey none).1 =
        [(some "B", kiteB)] := by
  refine ⟨(c5_failure_preserves_state envAllOk [acctNoKey] [acctNoKey] acctNoKey none true).1 (by decide),
    (c5_failure_preserves_state envAllOk [acctNoKey] [acctNoKey] acctNoKey none true).2
      [(some "B", kiteB)] none (by decide)⟩

/-- C6: a credential whose api key or api secret is absent or empty fails
immediately with the `Missing API credentials` message, performs no
network call, leaves store and disk unchanged, and the Connect handler
leaves the registry unchanged. -/
theorem c6_missing_credentials (env : KiteEnv) (store disk : List Account)
    (acc : Account) (urt : Option String) (taf : Bool)
    (h : pyFalsy acc.api_key = true ∨ pyFalsy acc.secret_api_key = true) :
    authenticate_account env store disk acc urt taf =
      ⟨none, "Missing API credentials for " ++ pyStr acc.account_id, [], store, disk⟩
    ∧ ∀ (reg : Registry) (savedToken : Option String),
        (connect_button_handler env reg store disk acc savedToken).1 = reg := by
  have hmain : ∀ (u : Option String) (taf2 : Bool), authenticate_account env store disk acc u taf2 =
      ⟨none, "Missing API credentials for " ++ pyStr acc.account_id, [], store, disk⟩ := by
    intro u taf2
    unfold authenticate_account
    rw [if_pos h]
  refine ⟨hmain urt taf, ?_⟩
  intro reg savedToken
  unfold connect_button_handler
  split
  · rename_i k heq
    rw [hmain (connectToken savedToken acc) true] at heq
    simp at heq
  · rfl

/-- Witness for C6 at a credential with no api key: the full outcome and
the untouched registry. -/
theorem c6_missing_credentials_witness :
    authenticate_account envAllOk [acctNoKey] [acctNoKey] acctNoKey none true =
      ⟨none, "Missing API credentials for A1", [], [acctNoKey], [acctNoKey]⟩
    ∧ (connect_button_handler envAllOk [] [acctNoKey] [acctNoKey] acctNoKey none).1 = [] := by
  refine ⟨(c6_missing_credentials envAllOk [acctNoKey] [acctNoKey] acctNoKey none true (by decide)).1,
    (c6_missing_credentials envAllOk [acctNoKey] [acctNoKey] acctNoKey none true (by decide)).2 [] none⟩

lemma pyStrip_empty : pyStrip "" = "" := rfl

lemma effectiveToken_ne_of_strip (urt : Option String) (acc : Account)
    (h : pyStrip (effectiveToken urt acc) ≠ "") : effectiveToken urt acc ≠ "" := by
  intro h0
  rw [h0, pyStrip_empty] at h
  exact h rfl

lemma authenticate_no_cached (env : KiteEnv) (store disk : List Account)
    (acc : Account) (urt : Option String) (taf : Bool)
    (hk : pyFalsy acc.api_key = false) (hs : pyFalsy acc.secret_api_key = false)
    (hc : Option.getD acc.access_token "" = "") :
    authenticate_account env store disk acc urt taf =
      authenticate_fresh env store disk acc urt [] := by
  unfold authenticate_account
  rw [if_neg (by simp [hk, hs]), if_neg (by simp [hc])]

lemma authenticate_cached_success (env : KiteEnv) (store disk : List Account)
    (acc : Account) (urt : Option String)
    (hk : pyFalsy acc.api_key = false) (hs : pyFalsy acc.secret_api_key = false)
    (hc : pyStrip (Option.getD acc.access_token "") ≠ "")
    (hp : env.profileCheck (Option.getD acc.api_key "") (Option.getD acc.access_token "") =
      Except.ok ()) :
    authenticate_account env store disk acc urt true =
      ⟨some ⟨Option.getD acc.api_key "", Option.getD acc.access_token ""⟩,
       "Connected: " ++ pyStr acc.account_id ++ " (using saved access_token)",
       [NetCall.profile (Option.getD acc.api_key "") (Option.getD acc.access_token "")],
       store, disk⟩ := by
  have hne : Option.getD acc.access_token "" ≠ "" := by
    intro h0
    rw [h0, pyStrip_empty] at hc
    exact hc rfl
  unfold authenticate_account
  rw [if_neg (by simp [hk, hs]), if_pos ⟨rfl, hne, hc⟩, hp]

lemma authenticate_fresh_blank (env : KiteEnv) (store disk : List Account)
    (acc : Account) (urt : Option String) (calls0 : List NetCall)
    (h : effectiveToken urt acc = "") :
    authenticate_fresh env store disk acc urt calls0 =
      ⟨none, "Request token required for " ++ pyStr acc.account_id, calls0, store, disk⟩ := by
  unfold authenticate_fresh
  rw [if_pos (Or.inl h)]

lemma authenticate_fresh_exchange_error (env : KiteEnv) (store disk : List Account)
    (acc : Account) (urt : Option String) (calls0 : List NetCall) (e : String)
    (hne : pyStrip (effectiveToken urt acc) ≠ "")
    (hgen : env.generateSession (Option.getD acc.api_key "") (effectiveToken urt acc)
      (Option.getD acc.secret_api_key "") = Except.error e) :
    authenticate_fresh env store disk acc urt calls0 =
      ⟨none, "Authentication failed for " ++ Option.getD acc.account_id "unknown" ++ ": " ++ e,
       calls0 ++ [NetCall.exchange (Option.getD acc.api_key "") (effectiveToken urt acc)
         (Option.getD acc.secret_api_key "")],
       store, disk⟩ := by
  unfold authenticate_fresh
  rw [if_neg (by simp [hne, effectiveToken_ne_of_strip urt acc hne]), hgen]

lemma authenticate_fresh_token_missing (env : KiteEnv) (store disk : List Account)
    (acc : Account) (urt : Option String) (calls0 : List NetCall) (d : Option String)
    (hne : pyStrip (effectiveToken urt acc) ≠ "")
    (hgen : env.generateSession (Option.getD acc.api_key "") (effectiveToken urt acc)
      (Option.getD acc.secret_api_key "") = Except.ok d)
    (hd : pyFalsy d = true) :
    authenticate_fresh env store disk acc urt calls0 =
      ⟨none, "Failed to get access token for " ++ pyStr acc.account_id,
       calls0 ++ [NetCall.exchange (Option.getD acc.api_key "") (effectiveToken urt acc)
         (Option.getD acc.secret_api_key "")],
       store, disk⟩ := by
  unfold authenticate_fresh
  rw [if_neg (by simp [hne, effectiveToken_ne_of_strip urt acc hne]), hgen]
  simp only [hd, if_pos]

lemma authenticate_fresh_verify_error (env : KiteEnv) (store disk : List Account)
    (acc : Account) (urt : Option String) (calls0 : List NetCall) (t e : String)
    (hne : pyStrip (effectiveToken urt acc) ≠ "")
    (hgen : env.generateSession (Option.getD acc.api_key "") (effectiveToken urt acc)
      (Option.getD acc.secret_api_key "") = Except.ok (some t))
    (ht : t ≠ "")
    (hp : env.profileCheck (Option.getD acc.api_key "") t = Except.error e) :
    authenticate_fresh env store disk acc urt calls0 =
      ⟨none, "Authentication failed for " ++ Option.getD acc.account_id "unknown" ++ ": " ++ e,
       calls0 ++ [NetCall.exchange (Option.getD acc.api_key "") (effectiveToken urt acc)
         (Option.getD acc.secret_api_key ""),
         NetCall.profile (Option.getD acc.api_key "") t],
       store, disk⟩ := by
  unfold authenticate_fresh
  rw [if_neg (by simp [hne, effectiveToken_ne_of_strip urt acc hne])]
  simp only [hgen]
  rw [if_neg (by simp [pyFalsy, ht])]
  simp only [Option.getD_some, hp]

lemma authenticate_fresh_success (env : KiteEnv) (store disk : List Account)
    (acc : Account) (urt : Option String) (calls0 : List NetCall) (t : String)
    (hne : pyStrip (effectiveToken urt acc) ≠ "")
    (hgen : env.generateSession (Option.getD acc.api_key "") (effectiveToken urt acc)
      (Option.getD acc.secret_api_key "") = Except.ok (some t))
    (ht : t ≠ "")
    (hp : env.profileCheck (Option.getD acc.api_key "") t = Except.ok ()) :
    authenticate_fresh env store disk acc urt calls0 =
      ⟨some ⟨Option.getD acc.api_key "", t⟩, "Connected: " ++ pyStr acc.account_id,
       calls0 ++ [NetCall.exchange (Option.getD acc.api_key "") (effectiveToken urt acc)
         (Option.getD acc.secret_api_key ""),
         NetCall.profile (Option.getD acc.api_key "") t],
       (update_account_access_token store disk env.saveOk acc.account_id t).2.1,
       (update_account_access_token store disk env.saveOk acc.account_id t).2.2⟩ := by
  unfold authenticate_fresh
  rw [if_neg (by simp [hne, effectiveToken_ne_of_strip urt acc hne])]
  simp only [hgen]
  rw [if_neg (by simp [pyFalsy, ht])]
  simp only [Option.getD_some, hp]

lemma update_disk_unchanged_of_save_fails (store disk : List Account)
    (aid : Option String) (tok : String) :
    (update_account_access_token store disk false aid tok).2.2 = disk :=
  update_go_disk_unchanged_of_save_fails aid tok store [] disk

/-- C1: end-to-end fresh-login scenario — one account `A1` with empty
cached token and stored request token `RT1`; with no caller token and the
cached path preferred, the cached step is skipped, the exchange
collaborator is called exactly once with `(RT1, S)`, the issued token
`AT1` is verified, the store (memory and disk) now carries
`access_token = AT1` for `A1`, and the call returns the connected
handle. -/
theorem c1_end_to_end_fresh_login (env : KiteEnv)
    (hgen : env.generateSession "K" "RT1" "S" = Except.ok (some "AT1"))
    (hp : env.profileCheck "K" "AT1" = Except.ok ())
    (hsave : env.saveOk = true) :
    authenticate_account env [acctA1] [acctA1] acctA1 none true =
      ⟨some ⟨"K", "AT1"⟩, "Connected: A1",
       [NetCall.exchange "K" "RT1" "S", NetCall.profile "K" "AT1"],
       [⟨some "A1", some "K", some "S", some "AT1", some "RT1"⟩],
       [⟨some "A1", some "K", some "S", some "AT1", some "RT1"⟩]⟩
    ∧ (authenticate_account env [acctA1] [acctA1] acctA1 none true).calls.countP
        NetCall.isExchange = 1 := by
  have h1 := authenticate_no_cached env [acctA1] [acctA1] acctA1 none true rfl rfl rfl
  have h2 := authenticate_fresh_success env [acctA1] [acctA1] acctA1 none [] "AT1"
    (by decide) hgen (by decide) hp
  constructor
  · rw [h1, h2, hsave]
    decide
  · rw [h1, h2, hsave]
    decide

/-- Witness for C1 in the concrete scenario environment. -/
theorem c1_end_to_end_witness :
    authenticate_account envC1 [acctA1] [acctA1] acctA1 none true =
      ⟨some ⟨"K", "AT1"⟩, "Connected: A1",
       [NetCall.exchange "K" "RT1" "S", NetCall.profile "K" "AT1"],
       [⟨some "A1", some "K", some "S", some "AT1", some "RT1"⟩],
       [⟨some "A1", some "K", some "S", some "AT1", some "RT1"⟩]⟩
    ∧ (authenticate_account envC1 [acctA1] [acctA1] acctA1 none true).calls.countP
        NetCall.isExchange = 1 :=
  c1_end_to_end_fresh_login envC1 rfl rfl rfl

/-- Counterexample to C2 as stated: the cached session token `" "` is
non-empty and the environment verifies every token, yet authentication
does not succeed through the cached path — the code additionally requires
the token to be non-blank after stripping, so the run fails asking for a
request token without any network call. -/
theorem c2_counterexample_blank_token :
    Option.getD acctBlankTok.access_token "" ≠ ""
    ∧ envAllOk.profileCheck "K" (Option.getD acctBlankTok.access_token "") = Except.ok ()
    ∧ (authenticate_account envAllOk [acctBlankTok] [acctBlankTok] acctBlankTok none true).result = none
    ∧ (authenticate_account envAllOk [acctBlankTok] [acctBlankTok] acctBlankTok none true).calls = []
    ∧ (authenticate_account envAllOk [acctBlankTok] [acctBlankTok] acctBlankTok none true).message =
        "Request token required for A1" :=
  ⟨by decide, rfl, by decide, by decide, rfl⟩

/-- C2 (amended: non-blank instead of non-empty cached token): a
credential with a cached session token that is non-blank after stripping,
whose profile verification succeeds, authenticates through the cached
path — the exchange collaborator receives zero calls, the store is
untouched — and running `authenticate_account` again on the resulting
state returns the identical outcome, again without the exchange
collaborator. -/
theorem c2_cached_success_idempotent (env : KiteEnv) (store disk : List Account)
    (acc : Account) (urt : Option String) (k s : String)
    (hk : acc.api_key = some k) (hk' : k ≠ "")
    (hs : acc.secret_api_key = some s) (hs' : s ≠ "")
    (hc : pyStrip (Option.getD acc.access_token "") ≠ "")
    (hp : env.profileCheck k (Option.getD acc.access_token "") = Except.ok ()) :
    authenticate_account env store disk acc urt true =
      ⟨some ⟨k, Option.getD acc.access_token ""⟩,
       "Connected: " ++ pyStr acc.account_id ++ " (using saved access_token)",
       [NetCall.profile k (Option.getD acc.access_token "")], store, disk⟩
    ∧ (authenticate_account env store disk acc urt true).calls.countP NetCall.isExchange = 0
    ∧ authenticate_account env (authenticate_account env store disk acc urt true).store
        (authenticate_account env store disk acc urt true).disk acc urt true =
        authenticate_account env store disk acc urt true := by
  have hkF : pyFalsy acc.api_key = false := by rw [hk]; simp [pyFalsy, hk']
  have hsF : pyFalsy acc.secret_api_key = false := by rw [hs]; simp [pyFalsy, hs']
  have hpk : env.profileCheck (Option.getD acc.api_key "") (Option.getD acc.access_token "") =
      Except.ok () := by rw [hk]; simpa using hp
  have hmain := authenticate_cached_success env store disk acc urt hkF hsF hc hpk
  refine ⟨?_, ?_, ?_⟩
  · rw [hmain]
    simp [hk]
  · rw [hmain]
    simp [List.countP_cons, NetCall.isExchange]
  · have h1 : (authenticate_account env store disk acc urt true).store = store := by rw [hmain]
    have h2 : (authenticate_account env store disk acc urt true).disk = disk := by rw [hmain]
    rw [h1, h2]

/-- Witness for the amended C2 with cached token `AT0` and an environment
whose exchange collaborator is down. -/
theorem c2_cached_success_witness :
    authenticate_account envCachedOnly [acctCached] [acctCached] acctCached none true =
      ⟨some ⟨"K", "AT0"⟩, "Connected: A1 (using saved access_token)",
       [NetCall.profile "K" "AT0"], [acctCached], [acctCached]⟩
    ∧ (authenticate_account envCachedOnly [acctCached] [acctCached] acctCached none true).calls.countP
        NetCall.isExchange = 0
    ∧ authenticate_account envCachedOnly
        (authenticate_account envCachedOnly [acctCached] [acctCached] acctCached none true).store
        (authenticate_account envCachedOnly [acctCached] [acctCached] acctCached none true).disk
        acctCached none true =
        authenticate_account envCachedOnly [acctCached] [acctCached] acctCached none true :=
  c2_cached_success_idempotent envCachedOnly [acctCached] [acctCached] acctCached none "K" "S"
    rfl (by decide) rfl (by decide) (by decide) rfl

lemma authenticate_fresh_calls_spec (env : KiteEnv) (store disk : List Account)
    (acc : Account) (urt : Option String) (calls0 : List NetCall) :
    ∀ c ∈ (authenticate_fresh env store disk acc urt calls0).calls,
      c ∈ calls0
      ∨ c = NetCall.exchange (Option.getD acc.api_key "") (effectiveToken urt acc)
          (Option.getD acc.secret_api_key "")
      ∨ NetCall.isExchange c = false := by
  unfold authenticate_fresh
  split
  · intro c hc
    exact Or.inl hc
  · split
    · intro c hc
      simp only [List.mem_append, List.mem_singleton] at hc
      rcases hc with hc | hc
      · exact Or.inl hc
      · exact Or.inr (Or.inl hc)
    · split
      · intro c hc
        simp only [List.mem_append, List.mem_singleton] at hc
        rcases hc with hc | hc
        · exact Or.inl hc
        · exact Or.inr (Or.inl hc)
      · split
        · intro c hc
          simp only [List.mem_append, List.mem_cons, List.mem_singleton] at hc
          rcases hc with hc | hc | hc | hc
          · exact Or.inl hc
          · exact Or.inr (Or.inl hc)
          · subst hc; exact Or.inr (Or.inr rfl)
          · exact absurd hc (by simp)
        · intro c hc
          simp only [List.mem_append, List.mem_cons, List.mem_singleton] at hc
          rcases hc with hc | hc | hc | hc
          · exact Or.inl hc
          · exact Or.inr (Or.inl hc)
          · subst hc; exact Or.inr (Or.inr rfl)
          · exact absurd hc (by simp)

lemma authenticate_calls_exchange (env : KiteEnv) (store disk : List Account)
    (acc : Account) (urt : Option String) (taf : Bool) :
    ∀ c ∈ (authenticate_account env store disk acc urt taf).calls,
      NetCall.isExchange c = true →
      c = NetCall.exchange (Option.getD acc.api_key "") (effectiveToken urt acc)
        (Option.getD acc.secret_api_key "") := by
  unfold authenticate_account
  split
  · intro c hc
    simp at hc
  · split
    · split
      · intro c hc hx
        simp only [List.mem_singleton] at hc
        subst hc
        simp [NetCall.isExchange] at hx
      · intro c hc hx
        rcases authenticate_fresh_calls_spec env store disk acc urt _ c hc with h | h | h
        · simp only [List.mem_singleton] at h
          subst h
          simp [NetCall.isExchange] at hx
        · exact h
        · rw [hx] at h
          cases h
    · intro c hc hx
      rcases authenticate_fresh_calls_spec env store disk acc urt _ c hc with h | h | h
      · simp at h
      · exact h
      · rw [hx] at h
        cases h

/-- C3: the effective login token is the caller-supplied token when that
is non-empty and otherwise the credential's stored request token; every
call to the exchange collaborator uses exactly that token together with
the api secret; and when the cached token is absent and the effective
token is empty, the run fails with the `Request token required` message
without any network call. -/
theorem c3_effective_token_policy (env : KiteEnv) (store disk : List Account)
    (acc : Account) (urt : Option String) (taf : Bool) (k s : String)
    (hk : acc.api_key = some k) (hk' : k ≠ "")
    (hs : acc.secret_api_key = some s) (hs' : s ≠ "") :
    ((∀ u, urt = some u → u ≠ "" → effectiveToken urt acc = u)
      ∧ ((urt = none ∨ urt = some "") →
          effectiveToken urt acc = Option.getD acc.request_token ""))
    ∧ (∀ c ∈ (authenticate_account env store disk acc urt taf).calls,
        NetCall.isExchange c = true →
        c = NetCall.exchange k (effectiveToken urt acc) s)
    ∧ (Option.getD acc.access_token "" = "" → effectiveToken urt acc = "" →
        authenticate_account env store disk acc urt taf =
          ⟨none, "Request token required for " ++ pyStr acc.account_id, [], store, disk⟩) := by
  have hkF : pyFalsy acc.api_key = false := by rw [hk]; simp [pyFalsy, hk']
  have hsF : pyFalsy acc.secret_api_key = false := by rw [hs]; simp [pyFalsy, hs']
  refine ⟨⟨?_, ?_⟩, ?_, ?_⟩
  · intro u hu hu'
    subst hu
    simp [effectiveToken, hu']
  · intro hu
    rcases hu with hu | hu <;> subst hu <;> simp [effectiveToken]
  · intro c hc hx
    have h2 := authenticate_calls_exchange env store disk acc urt taf c hc hx
    rw [hk, hs] at h2
    simpa using h2
  · intro hc heff
    rw [authenticate_no_cached env store disk acc urt taf hkF hsF hc,
      authenticate_fresh_blank env store disk acc urt [] heff]

/-- Witness for C3: no cached token, no caller token, no stored token —
the run fails with `Request token required` and an empty call trace. -/
theorem c3_login_token_required_witness :
    authenticate_account envAllOk [acctBare] [acctBare] acctBare none true =
      ⟨none, "Request token required for A1", [], [acctBare], [acctBare]⟩ :=
  (c3_effective_token_policy envAllOk [acctBare] [acctBare] acctBare none true "K" "S"
    rfl (by decide) rfl (by decide)).2.2 rfl rfl

/-- Counterexample to C4 as stated: a failed exchange and a failed
profile verification are two distinct failure points (the call traces
differ), yet the caller-visible result — the `(None, message)` pair — is
identical whenever the upstream error text coincides, so the three
failure kinds are not each structurally distinguishable by the caller. -/
theorem c4_counterexample_indistinguishable :
    (authenticate_account envExchFail [acctA1] [acctA1] acctA1 none true).calls =
      [NetCall.exchange "K" "RT1" "S"]
    ∧ (authenticate_account envVerFail [acctA1] [acctA1] acctA1 none true).calls =
      [NetCall.exchange "K" "RT1" "S", NetCall.profile "K" "AT1"]
    ∧ (authenticate_account envExchFail [acctA1] [acctA1] acctA1 none true).result = none
    ∧ (authenticate_account envVerFail [acctA1] [acctA1] acctA1 none true).result = none
    ∧ (authenticate_account envExchFail [acctA1] [acctA1] acctA1 none true).message =
        (authenticate_account envVerFail [acctA1] [acctA1] acctA1 none true).message :=
  ⟨by decide, by decide, by decide, by decide, by decide⟩

/-- C4 (amended): the three failure points of the fresh-login path each
return `None` with these messages — a failed exchange and a failed
profile verification both yield `Authentication failed for {id}: {text}`
carrying the upstream error text (hence distinguishable from each other
only through that text), while an exchange that yields no session token
returns the distinct `Failed to get access token for {id}` message. -/
theorem c4_fresh_login_failure_messages (env : KiteEnv) (store disk : List Account)
    (acc : Account) (urt : Option String) (taf : Bool) (k s : String)
    (hk : acc.api_key = some k) (hk' : k ≠ "")
    (hs : acc.secret_api_key = some s) (hs' : s ≠ "")
    (hc : Option.getD acc.access_token "" = "")
    (he : pyStrip (effectiveToken urt acc) ≠ "") :
    (∀ e, env.generateSession k (effectiveToken urt acc) s = Except.error e →
      (authenticate_account env store disk acc urt taf).result = none
      ∧ (authenticate_account env store disk acc urt taf).message =
          "Authentication failed for " ++ Option.getD acc.account_id "unknown" ++ ": " ++ e)
    ∧ (∀ d, env.generateSession k (effectiveToken urt acc) s = Except.ok d →
        pyFalsy d = true →
      (authenticate_account env store disk acc urt taf).result = none
      ∧ (authenticate_account env store disk acc urt taf).message =
          "Failed to get access token for " ++ pyStr acc.account_id)
    ∧ (∀ t e, env.generateSession k (effectiveToken urt acc) s = Except.ok (some t) →
        t ≠ "" → env.profileCheck k t = Except.error e →
      (authenticate_account env store disk acc urt taf).result = none
      ∧ (authenticate_account env store disk acc urt taf).message =
          "Authentication failed for " ++ Option.getD acc.account_id "unknown" ++ ": " ++ e) := by
  have hkF : pyFalsy acc.api_key = false := by rw [hk]; simp [pyFalsy, hk']
  have hsF : pyFalsy acc.secret_api_key = false := by rw [hs]; simp [pyFalsy, hs']
  have hnc := authenticate_no_cached env store disk acc urt taf hkF hsF hc
  refine ⟨?_, ?_, ?_⟩
  · intro e hg
    have hg' : env.generateSession (Option.getD acc.api_key "") (effectiveToken urt acc)
        (Option.getD acc.secret_api_key "") = Except.error e := by
      rw [hk, hs]; simpa using hg
    rw [hnc, authenticate_fresh_exchange_error env store disk acc urt [] e he hg']
    exact ⟨rfl, rfl⟩
  · intro d hg hd
    have hg' : env.generateSession (Option.getD acc.api_key "") (effectiveToken urt acc)
        (Option.getD acc.secret_api_key "") = Except.ok d := by
      rw [hk, hs]; simpa using hg
    rw [hnc, authenticate_fresh_token_missing env store disk acc urt [] d he hg' hd]
    exact ⟨rfl, rfl⟩
  · intro t e hg ht hp
    have hg' : env.generateSession (Option.getD acc.api_key "") (effectiveToken urt acc)
        (Option.getD acc.secret_api_key "") = Except.ok (some t) := by
      rw [hk, hs]; simpa using hg
    have hp' : env.profileCheck (Option.getD acc.api_key "") t = Except.error e := by
      rw [hk]; simpa using hp
    rw [hnc, authenticate_fresh_verify_error env store disk acc urt [] t e he hg' ht hp']
    exact ⟨rfl, rfl⟩

/-- Witness for the amended C4: the three failure points exercised in
three concrete environments. -/
theorem c4_failure_messages_witness :
    ((authenticate_account envExchFail [acctA1] [acctA1] acctA1 none true).result = none
      ∧ (authenticate_account envExchFail [acctA1] [acctA1] acctA1 none true).message =
          "Authentication failed for A1: boom")
    ∧ ((authenticate_account envTokMissing [acctA1] [acctA1] acctA1 none true).result = none
      ∧ (authenticate_account envTokMissing [acctA1] [acctA1] acctA1 none true).message =
          "Failed to get access token for A1")
    ∧ ((authenticate_account envVerFail [acctA1] [acctA1] acctA1 none true).result = none
      ∧ (authenticate_account envVerFail [acctA1] [acctA1] acctA1 none true).message =
          "Authentication failed for A1: boom") :=
  ⟨(c4_fresh_login_failure_messages envExchFail [acctA1] [acctA1] acctA1 none true "K" "S"
      rfl (by decide) rfl (by decide) rfl (by decide)).1 "boom" rfl,
   (c4_fresh_login_failure_messages envTokMissing [acctA1] [acctA1] acctA1 none true "K" "S"
      rfl (by decide) rfl (by decide) rfl (by decide)).2.1 none rfl rfl,
   (c4_fresh_login_failure_messages envVerFail [acctA1] [acctA1] acctA1 none true "K" "S"
      rfl (by decide) rfl (by decide) rfl (by decide)).2.2 "AT1" "boom" rfl (by decide) rfl⟩

/-- C7: when the fresh-login path verifies its new session token but the
write of `config.json` fails, `authenticate_account` still returns the
connected handle with the success message — the persistence failure does
not change the result — and the on-disk store is left as it was. -/
theorem c7_persist_failure_still_success (env : KiteEnv) (store disk : List Account)
    (acc : Account) (urt : Option String) (taf : Bool) (k s t : String)
    (hk : acc.api_key = some k) (hk' : k ≠ "")
    (hs : acc.secret_api_key = some s) (hs' : s ≠ "")
    (hc : Option.getD acc.access_token "" = "")
    (he : pyStrip (effectiveToken urt acc) ≠ "")
    (hgen : env.generateSession k (effectiveToken urt acc) s = Except.ok (some t))
    (ht : t ≠ "")
    (hp : env.profileCheck k t = Except.ok ())
    (hsave : env.saveOk = false) :
    (authenticate_account env store disk acc urt taf).result = some ⟨k, t⟩
    ∧ (authenticate_account env store disk acc urt taf).message =
        "Connected: " ++ pyStr acc.account_id
    ∧ (authenticate_account env store disk acc urt taf).disk = disk := by
  have hkF : pyFalsy acc.api_key = false := by rw [hk]; simp [pyFalsy, hk']
  have hsF : pyFalsy acc.secret_api_key = false := by rw [hs]; simp [pyFalsy, hs']
  have hnc := authenticate_no_cached env store disk acc urt taf hkF hsF hc
  have hg' : env.generateSession (Option.getD acc.api_key "") (effectiveToken urt acc)
      (Option.getD acc.secret_api_key "") = Except.ok (some t) := by
    rw [hk, hs]; simpa using hgen
  have hp' : env.profileCheck (Option.getD acc.api_key "") t = Except.ok () := by
    rw [hk]; simpa using hp
  have hsucc := authenticate_fresh_success env store disk acc urt [] t he hg' ht hp'
  refine ⟨?_, ?_, ?_⟩
  · rw [hnc, hsucc]
    simp [hk]
  · rw [hnc, hsucc]
  · rw [hnc, hsucc, hsave]
    exact update_disk_unchanged_of_save_fails store disk acc.account_id t

/-- Witness for C7: verified fresh login with a failing configuration
write still reports the connected handle, and the disk keeps the old
token. -/
theorem c7_persist_failure_witness :
    (authenticate_account envNoSave [acctA1] [acctA1] acctA1 none true).result =
      some ⟨"K", "AT1"⟩
    ∧ (authenticate_account envNoSave [acctA1] [acctA1] acctA1 none true).message =
        "Connected: A1"
    ∧ (authenticate_account envNoSave [acctA1] [acctA1] acctA1 none true).disk = [acctA1] :=
  c7_persist_failure_still_success envNoSave [acctA1] [acctA1] acctA1 none true "K" "S" "AT1"
    rfl (by decide) rfl (by decide) rfl (by decide) rfl (by decide) rfl rfl
